import Mathlib

/-!
Shallow embedding of the QR-scan geofence validation core of the
patrol-management API (src/routes/guard_routes.py `scan_qr_code`,
src/routes/qr_routes.py `public_scan_qr_code`), together with theorems
settling the spec claims about it.

Modelling conventions:
* Python floats are idealised as rationals (`ℚ`); `round(x, n)` is
  round-half-to-even scaled by `10 ^ n` (`pyRound`).
* The geopy geodesic distance (`geodesic(a, b).meters`, an external
  library) is an explicit parameter `dist : Coordinates → Coordinates → ℚ`.
* MongoDB collections are lists of documents; `find_one(query)` is
  `List.find?` with the query predicate; `insert_one` appends.
* Effectful outcomes that the code observes are explicit parameters:
  the reverse-geocode outcome (`geocode : Option String`, `none` when the
  TomTom call raised or returned a falsy result), the event-store insert
  outcome (`insert : Option Nat`, `none` when `insert_one` raised, `some
  eventId` otherwise), and the Google-Sheets mirror outcome
  (`sheets_ok : Bool`; the code swallows its failure, logging only).
* `HTTPException(status_code, detail)` is `HTTPError`; a route handler
  returns `Except HTTPError (response × new event store)`.
-/

/-- Decimal-degree coordinate pair (the `Coordinates` model). -/
structure Coordinates where
  latitude : ℚ
  longitude : ℚ
deriving DecidableEq, Repr

/-- A document of the `qr_locations` collection, with the fields the scan
routes read: `qrId`, `supervisorId`, `isActive`, `_id`, `locationName`,
`coordinates`, `areaCity`, `areaState`, `areaCountry`. -/
structure QRLocation where
  oid : Nat
  qrId : String
  supervisorId : Nat
  isActive : Bool
  locationName : String
  coordinates : Coordinates
  areaCity : String
  areaState : String
  areaCountry : String
deriving DecidableEq, Repr

/-- The resolved guard identity (`current_guard` from the auth dependency):
`guard_id`, `supervisor_id`, `name`, `email`. -/
structure Guard where
  guard_id : Nat
  supervisor_id : Nat
  name : String
  email : String
deriving DecidableEq, Repr

/-- A document of the `users` collection, with the fields the public scan
route reads: `_id`, `email`, `role`, `isActive`, `name`. -/
structure User where
  oid : Nat
  email : String
  role : String
  isActive : Bool
  name : String
deriving DecidableEq, Repr

/-- A document of the `guards` collection, with the fields the public scan
route reads: `_id`, `userId`, `supervisorId`. -/
structure GuardDoc where
  oid : Nat
  userId : Nat
  supervisorId : Nat
deriving DecidableEq, Repr

/-- The request body of the authenticated scan (`QRScanRequest`):
`qrId`, `coordinates`, `notes` (the guard route reads no device field). -/
structure QRScanRequest where
  qrId : String
  coordinates : Coordinates
  notes : Option String
deriving DecidableEq, Repr

/-- The request body of the public scan (`QRCodePublicScanRequest`):
`guardEmail`, `qrId`, `coordinates`, `notes`, `deviceInfo`. -/
structure QRCodePublicScanRequest where
  guardEmail : String
  qrId : String
  coordinates : Coordinates
  notes : Option String
  deviceInfo : Option String
deriving DecidableEq, Repr

/-- The scan-event document both routes build and insert into the
`scan_events` collection. The guard route writes no `deviceInfo` key;
absence of the key is modelled as `deviceInfo = none`. -/
structure ScanEventDoc where
  guardId : Nat
  supervisorId : Nat
  qrLocationId : Nat
  qrId : String
  locationName : String
  coordinates : Coordinates
  address : String
  areaCity : String
  areaState : String
  areaCountry : String
  isWithinRadius : Bool
  distanceFromQR : ℚ
  scannedAt : Nat
  notes : Option String
  deviceInfo : Option String
deriving DecidableEq, Repr

/-- `HTTPException(status_code=…, detail=…)` raised by a route handler. -/
structure HTTPError where
  status_code : Nat
  detail : String
deriving DecidableEq, Repr

/-- The response model of the authenticated scan (`QRScanResponse`). -/
structure QRScanResponse where
  scanEventId : Nat
  qrId : String
  locationName : String
  isWithinRadius : Bool
  distanceFromQR : ℚ
  address : String
  scannedAt : Nat
  message : String
deriving DecidableEq, Repr

/-- The response model of the public scan (`QRCodePublicScanResponse`). -/
structure QRCodePublicScanResponse where
  scanEventId : Nat
  success : Bool
  qrId : String
  locationName : String
  isWithinRadius : Bool
  distanceFromQR : ℚ
  radiusLimit : ℚ
  address : String
  scannedAt : Nat
  message : String
  guardName : String
  areaCity : String
deriving DecidableEq, Repr

/-- Round a rational to the nearest integer, ties to even — the rounding
of Python's built-in `round` (idealising the float argument by a
rational). -/
def roundHalfEven (q : ℚ) : ℤ :=
  let f : ℤ := ⌊q⌋
  if q - f < 1 / 2 then f
  else if 1 / 2 < q - f then f + 1
  else if 2 ∣ f then f else f + 1

/-- Python `round(x, n)`: round-half-to-even at `n` decimal places. -/
def pyRound (q : ℚ) (n : ℕ) : ℚ :=
  (roundHalfEven (q * 10 ^ n) : ℚ) / 10 ^ n

/-- Render a nonnegative rational with exactly one digit after the decimal
point — the f-string rendering of the one-decimal float
`round(distance_meters, 1)` in the warning message. -/
def formatRat1 (q : ℚ) : String :=
  toString ⌊q⌋ ++ "." ++ toString (⌊q * 10⌋ - 10 * ⌊q⌋)

/-- The warning message of both scan routes:
`f"Warning: You are {round(distance_meters, 1)}m away from the QR location"`. -/
def warningMessage (distance_meters : ℚ) : String :=
  "Warning: You are " ++ formatRat1 (pyRound distance_meters 1) ++
    "m away from the QR location"

/-- The query predicate of the QR-location lookup shared by both routes:
`{"qrId": qrId, "supervisorId": supervisor_id, "isActive": True}`. -/
def qrLocationQuery (qrId : String) (supervisor_id : Nat) (l : QRLocation) :
    Bool :=
  l.qrId == qrId && l.supervisorId == supervisor_id && l.isActive

/-- `scan_qr_code` (src/routes/guard_routes.py): the authenticated scan
route. Parameters in order: the configured radius
(`settings.WITHIN_RADIUS_METERS`), the geodesic distance function,
whether the database collections are available, the `qr_locations`
collection, the resolved `current_guard`, the request, the geocode
outcome, the event-store insert outcome, the sheets-mirror outcome, the
current time (`datetime.utcnow()`), and the current contents of the
`scan_events` collection. Returns the response together with the new
contents of `scan_events`, or the `HTTPException` raised. -/
def scan_qr_code (radius_threshold : ℚ)
    (dist : Coordinates → Coordinates → ℚ) (db_available : Bool)
    (qr_locations : List QRLocation) (current_guard : Guard)
    (scan_request : QRScanRequest) (geocode : Option String)
    (insert : Option Nat) (sheets_ok : Bool) (now : Nat)
    (events : List ScanEventDoc) :
    Except HTTPError (QRScanResponse × List ScanEventDoc) :=
  if ¬ db_available then
    .error ⟨503, "Database not available"⟩
  else
    match qr_locations.find?
        (qrLocationQuery scan_request.qrId current_guard.supervisor_id) with
    | none => .error ⟨404, "QR code not found or inactive"⟩
    | some qr_location =>
      let guard_location := scan_request.coordinates
      let qr_location_coords := qr_location.coordinates
      let distance_meters := dist guard_location qr_location_coords
      let is_within_radius : Bool := distance_meters ≤ radius_threshold
      -- reverse geocode in try/except: on failure current_address stays ""
      let current_address := match geocode with
        | some a => a
        | none => ""
      let scan_event_doc : ScanEventDoc :=
        { guardId := current_guard.guard_id
          supervisorId := current_guard.supervisor_id
          qrLocationId := qr_location.oid
          qrId := scan_request.qrId
          locationName := qr_location.locationName
          coordinates := ⟨scan_request.coordinates.latitude,
                          scan_request.coordinates.longitude⟩
          address := current_address
          areaCity := qr_location.areaCity
          areaState := qr_location.areaState
          areaCountry := qr_location.areaCountry
          isWithinRadius := is_within_radius
          distanceFromQR := pyRound distance_meters 2
          scannedAt := now
          notes := scan_request.notes
          deviceInfo := none }
      match insert with
      | none =>
        -- insert_one raised: caught by the outer handler as HTTP 500
        .error ⟨500, "Failed to process QR scan"⟩
      | some inserted_id =>
        -- Google-Sheets mirror in try/except: its outcome (sheets_ok) is
        -- logged only and affects neither the response nor the store
        .ok ({ scanEventId := inserted_id
               qrId := scan_request.qrId
               locationName := qr_location.locationName
               isWithinRadius := is_within_radius
               distanceFromQR := pyRound distance_meters 2
               address := current_address
               scannedAt := now
               message := if is_within_radius then
                   "QR code scanned successfully"
                 else warningMessage distance_meters },
             events ++ [scan_event_doc])

/-- `public_scan_qr_code` (src/routes/qr_routes.py): the public scan
route. Resolves the guard from `users` (by email, role GUARD, active)
and `guards` (by userId) before the same lookup/compute/persist
pipeline, persisting `deviceInfo` and answering with `success`,
`radiusLimit`, `guardName` and `areaCity` in addition. -/
def public_scan_qr_code (radius_threshold : ℚ)
    (dist : Coordinates → Coordinates → ℚ) (db_available : Bool)
    (users : List User) (guards : List GuardDoc)
    (qr_locations : List QRLocation)
    (scan_request : QRCodePublicScanRequest) (geocode : Option String)
    (insert : Option Nat) (sheets_ok : Bool) (now : Nat)
    (events : List ScanEventDoc) :
    Except HTTPError (QRCodePublicScanResponse × List ScanEventDoc) :=
  if ¬ db_available then
    .error ⟨503, "Database not available"⟩
  else
    match users.find? (fun u =>
        u.email == scan_request.guardEmail && u.role == "GUARD" &&
          u.isActive) with
    | none => .error ⟨404, "Guard not found or inactive"⟩
    | some guard_user =>
      match guards.find? (fun g => g.userId == guard_user.oid) with
      | none => .error ⟨404, "Guard profile not found"⟩
      | some guard =>
        let supervisor_id := guard.supervisorId
        match qr_locations.find?
            (qrLocationQuery scan_request.qrId supervisor_id) with
        | none => .error ⟨404, "QR code not found or inactive"⟩
        | some qr_location =>
          let guard_location := scan_request.coordinates
          let qr_location_coords := qr_location.coordinates
          let distance_meters := dist guard_location qr_location_coords
          let is_within_radius : Bool := distance_meters ≤ radius_threshold
          let current_address := match geocode with
            | some a => a
            | none => ""
          let scan_event_doc : ScanEventDoc :=
            { guardId := guard.oid
              supervisorId := supervisor_id
              qrLocationId := qr_location.oid
              qrId := scan_request.qrId
              locationName := qr_location.locationName
              coordinates := ⟨scan_request.coordinates.latitude,
                              scan_request.coordinates.longitude⟩
              address := current_address
              areaCity := qr_location.areaCity
              areaState := qr_location.areaState
              areaCountry := qr_location.areaCountry
              isWithinRadius := is_within_radius
              distanceFromQR := pyRound distance_meters 2
              scannedAt := now
              notes := scan_request.notes
              deviceInfo := scan_request.deviceInfo }
          match insert with
          | none => .error ⟨500, "Failed to process QR scan"⟩
          | some inserted_id =>
            .ok ({ scanEventId := inserted_id
                   success := true
                   qrId := scan_request.qrId
                   locationName := qr_location.locationName
                   isWithinRadius := is_within_radius
                   distanceFromQR := pyRound distance_meters 2
                   radiusLimit := radius_threshold
                   address := current_address
                   scannedAt := now
                   message := if is_within_radius then
                       "QR code scanned successfully"
                     else warningMessage distance_meters
                   guardName := guard_user.name
                   areaCity := qr_location.areaCity },
                 events ++ [scan_event_doc])

/-- Modelled from the spec: the request-validation layer (the pydantic
`Coordinates` model in models.py, which is not among the provided source
files) rejects latitude outside [-90, 90] or longitude outside
[-180, 180]. -/
def validCoordinates (c : Coordinates) : Bool :=
  -90 ≤ c.latitude && c.latitude ≤ 90 &&
    -180 ≤ c.longitude && c.longitude ≤ 180

/-- Modelled from the spec: `validate_and_record` — the spec's name for
the scan operation including the validation layer. Malformed coordinates
fail with `InvalidArgument` before any I/O; otherwise the request reaches
`scan_qr_code`. -/
def validate_and_record (radius_threshold : ℚ)
    (dist : Coordinates → Coordinates → ℚ) (db_available : Bool)
    (qr_locations : List QRLocation) (current_guard : Guard)
    (scan_request : QRScanRequest) (geocode : Option String)
    (insert : Option Nat) (sheets_ok : Bool) (now : Nat)
    (events : List ScanEventDoc) :
    Except HTTPError (QRScanResponse × List ScanEventDoc) :=
  if validCoordinates scan_request.coordinates then
    scan_qr_code radius_threshold dist db_available qr_locations
      current_guard scan_request geocode insert sheets_ok now events
  else
    .error ⟨422, "InvalidArgument"⟩

/-- The contents of the `scan_events` collection after a call: unchanged
when the call raised, the returned store otherwise. -/
def storeAfter {α : Type} (events : List ScanEventDoc)
    (r : Except HTTPError (α × List ScanEventDoc)) : List ScanEventDoc :=
  match r with
  | .error _ => events
  | .ok (_, evs) => evs

/-- The components of a scan verdict the two routes share: geofence flag,
rounded distance, message; `none` when the call raised. -/
def guardVerdict (r : Except HTTPError (QRScanResponse × List ScanEventDoc)) :
    Option (Bool × ℚ × String) :=
  match r with
  | .error _ => none
  | .ok (resp, _) => some (resp.isWithinRadius, resp.distanceFromQR, resp.message)

/-- The shared verdict components of a public scan response. -/
def publicVerdict
    (r : Except HTTPError (QRCodePublicScanResponse × List ScanEventDoc)) :
    Option (Bool × ℚ × String) :=
  match r with
  | .error _ => none
  | .ok (resp, _) => some (resp.isWithinRadius, resp.distanceFromQR, resp.message)

/-- Concrete QR location used to evaluate the theorems. -/
def testLoc : QRLocation :=
  ⟨1, "QR1", 7, true, "Main Gate", ⟨13, 77⟩, "Bengaluru", "KA", "IN"⟩

/-- Concrete resolved guard identity. -/
def testGuard : Guard := ⟨11, 7, "Asha", "asha@example.com"⟩

/-- Concrete authenticated scan request. -/
def testReq : QRScanRequest := ⟨"QR1", ⟨13, 77 + 1 / 1000⟩, none⟩

/-- Concrete distance function standing in for the geodesic library call. -/
def testDist : Coordinates → Coordinates → ℚ := fun _ _ => 42

/-- Concrete user document for the public route's guard resolution. -/
def testUser : User := ⟨21, "asha@example.com", "GUARD", true, "Asha"⟩

/-- Concrete guards-collection document for the public route. -/
def testGuardDoc : GuardDoc := ⟨11, 21, 7⟩

/-- Concrete public scan request. -/
def testPubReq : QRCodePublicScanRequest :=
  ⟨"asha@example.com", "QR1", ⟨13, 77 + 1 / 1000⟩, none, some "pixel-8"⟩

/-- C1: for a resolved active QR location, the verdict's within-radius flag
is true iff the full-precision distance is at most the configured radius
(so a point exactly at the threshold is within radius), while the stored
and displayed distance is the two-decimal rounding — rounding happens
only after the comparison. -/
theorem claim_C1_within_radius_iff_full_precision
    (radius_threshold : ℚ) (dist : Coordinates → Coordinates → ℚ)
    (qr_locations : List QRLocation) (current_guard : Guard)
    (scan_request : QRScanRequest) (geocode : Option String) (eid : Nat)
    (sheets_ok : Bool) (now : Nat) (events : List ScanEventDoc)
    (qr_location : QRLocation)
    (hloc : qr_locations.find?
        (qrLocationQuery scan_request.qrId current_guard.supervisor_id) =
      some qr_location) :
    ∃ resp store,
      scan_qr_code radius_threshold dist true qr_locations current_guard
          scan_request geocode (some eid) sheets_ok now events =
        .ok (resp, store) ∧
      (resp.isWithinRadius = true ↔
        dist scan_request.coordinates qr_location.coordinates ≤
          radius_threshold) ∧
      resp.distanceFromQR =
        pyRound (dist scan_request.coordinates qr_location.coordinates) 2 := by
  unfold scan_qr_code
  rw [hloc]
  exact ⟨_, _, rfl, by simp, rfl⟩

/-- C1 witness: a concrete scan whose distance 42 exceeds the radius 40. -/
theorem claim_C1_witness :
    [testLoc].find? (qrLocationQuery testReq.qrId testGuard.supervisor_id) =
      some testLoc ∧
    ∃ resp store,
      scan_qr_code 40 testDist true [testLoc] testGuard testReq none
          (some 5) true 0 [] = .ok (resp, store) ∧
      (resp.isWithinRadius = true ↔
        testDist testReq.coordinates testLoc.coordinates ≤ 40) ∧
      resp.distanceFromQR =
        pyRound (testDist testReq.coordinates testLoc.coordinates) 2 :=
  ⟨by decide,
   claim_C1_within_radius_iff_full_precision 40 testDist [testLoc] testGuard
     testReq none 5 true 0 [] testLoc (by decide)⟩

/-- C2: for valid coordinates and a QR location that resolves as active in
the actor's owning group, `validate_and_record` succeeds and appends
exactly one new scan event — also when the distance exceeds the radius,
in which case the event carries `isWithinRadius = false`; distance never
causes rejection. -/
theorem claim_C2_success_appends_one_event
    (radius_threshold : ℚ) (dist : Coordinates → Coordinates → ℚ)
    (qr_locations : List QRLocation) (current_guard : Guard)
    (scan_request : QRScanRequest) (geocode : Option String) (eid : Nat)
    (sheets_ok : Bool) (now : Nat) (events : List ScanEventDoc)
    (qr_location : QRLocation)
    (hvalid : validCoordinates scan_request.coordinates = true)
    (hloc : qr_locations.find?
        (qrLocationQuery scan_request.qrId current_guard.supervisor_id) =
      some qr_location) :
    ∃ resp e,
      validate_and_record radius_threshold dist true qr_locations
          current_guard scan_request geocode (some eid) sheets_ok now events =
        .ok (resp, events ++ [e]) ∧
      (radius_threshold <
          dist scan_request.coordinates qr_location.coordinates →
        e.isWithinRadius = false) := by
  unfold validate_and_record scan_qr_code
  rw [hvalid, hloc]
  refine ⟨_, _, rfl, fun hlt => ?_⟩
  simpa using hlt

/-- C2 witness: a concrete out-of-radius scan that still succeeds and
records the event. -/
theorem claim_C2_witness :
    validCoordinates testReq.coordinates = true ∧
    [testLoc].find? (qrLocationQuery testReq.qrId testGuard.supervisor_id) =
      some testLoc ∧
    ∃ resp e,
      validate_and_record 40 testDist true [testLoc] testGuard testReq none
          (some 5) true 0 [] = .ok (resp, [] ++ [e]) ∧
      (40 < testDist testReq.coordinates testLoc.coordinates →
        e.isWithinRadius = false) :=
  ⟨by norm_num [validCoordinates, testReq], by decide,
   claim_C2_success_appends_one_event 40 testDist [testLoc] testGuard testReq
     none 5 true 0 [] testLoc (by norm_num [validCoordinates, testReq])
     (by decide)⟩

/-- C3: a qr_id that does not resolve to an existing, active location of
the actor's owning group makes both scan routes fail with the 404
NotFound error, leaving the event store unchanged. -/
theorem claim_C3_unresolved_qr_not_found
    (radius_threshold : ℚ) (dist : Coordinates → Coordinates → ℚ)
    (users : List User) (guards : List GuardDoc)
    (qr_locations : List QRLocation) (current_guard : Guard)
    (scan_request : QRScanRequest)
    (public_request : QRCodePublicScanRequest) (geocode : Option String)
    (insert : Option Nat) (sheets_ok : Bool) (now : Nat)
    (events : List ScanEventDoc) (guard_user : User) (guard_doc : GuardDoc)
    (hvalid : validCoordinates scan_request.coordinates = true)
    (hloc : qr_locations.find?
        (qrLocationQuery scan_request.qrId current_guard.supervisor_id) =
      none)
    (hu : users.find? (fun u =>
        u.email == public_request.guardEmail && u.role == "GUARD" &&
          u.isActive) = some guard_user)
    (hgd : guards.find? (fun g => g.userId == guard_user.oid) =
      some guard_doc)
    (hlocp : qr_locations.find?
        (qrLocationQuery public_request.qrId guard_doc.supervisorId) =
      none) :
    validate_and_record radius_threshold dist true qr_locations
        current_guard scan_request geocode insert sheets_ok now events =
      .error ⟨404, "QR code not found or inactive"⟩ ∧
    storeAfter events
        (validate_and_record radius_threshold dist true qr_locations
          current_guard scan_request geocode insert sheets_ok now events) =
      events ∧
    public_scan_qr_code radius_threshold dist true users guards qr_locations
        public_request geocode insert sheets_ok now events =
      .error ⟨404, "QR code not found or inactive"⟩ ∧
    storeAfter events
        (public_scan_qr_code radius_threshold dist true users guards
          qr_locations public_request geocode insert sheets_ok now events) =
      events := by
  unfold validate_and_record scan_qr_code public_scan_qr_code
  simp [hvalid, hloc, hu, hgd, hlocp, storeAfter]

/-- C3 witness: scanning against an empty `qr_locations` collection. -/
theorem claim_C3_witness :
    validCoordinates testReq.coordinates = true ∧
    ([] : List QRLocation).find?
        (qrLocationQuery testReq.qrId testGuard.supervisor_id) = none ∧
    [testUser].find? (fun u =>
        u.email == testPubReq.guardEmail && u.role == "GUARD" &&
          u.isActive) = some testUser ∧
    [testGuardDoc].find? (fun g => g.userId == testUser.oid) =
      some testGuardDoc ∧
    validate_and_record 40 testDist true [] testGuard testReq none (some 5)
        true 0 [] = .error ⟨404, "QR code not found or inactive"⟩ ∧
    public_scan_qr_code 40 testDist true [testUser] [testGuardDoc] []
        testPubReq none (some 5) true 0 [] =
      .error ⟨404, "QR code not found or inactive"⟩ :=
  ⟨by norm_num [validCoordinates, testReq], by decide, by decide, by decide,
   (claim_C3_unresolved_qr_not_found 40 testDist [testUser] [testGuardDoc]
     [] testGuard testReq testPubReq none (some 5) true 0 [] testUser
     testGuardDoc (by norm_num [validCoordinates, testReq]) (by decide)
     (by decide) (by decide) (by decide)).1,
   (claim_C3_unresolved_qr_not_found 40 testDist [testUser] [testGuardDoc]
     [] testGuard testReq testPubReq none (some 5) true 0 [] testUser
     testGuardDoc (by norm_num [validCoordinates, testReq]) (by decide)
     (by decide) (by decide) (by decide)).2.2.1⟩

/-- C4: coordinates outside the valid latitude/longitude ranges fail with
InvalidArgument before any I/O — the outcome does not depend on the
database, the geocoder, the event store or the sheets mirror — and the
event store is unchanged. -/
theorem claim_C4_invalid_coordinates_rejected
    (radius_threshold : ℚ) (dist : Coordinates → Coordinates → ℚ)
    (db_available : Bool) (qr_locations : List QRLocation)
    (current_guard : Guard) (scan_request : QRScanRequest)
    (geocode : Option String) (insert : Option Nat) (sheets_ok : Bool)
    (now : Nat) (events : List ScanEventDoc)
    (hinvalid : validCoordinates scan_request.coordinates = false) :
    validate_and_record radius_threshold dist db_available qr_locations
        current_guard scan_request geocode insert sheets_ok now events =
      .error ⟨422, "InvalidArgument"⟩ ∧
    storeAfter events
        (validate_and_record radius_threshold dist db_available qr_locations
          current_guard scan_request geocode insert sheets_ok now events) =
      events := by
  unfold validate_and_record
  rw [hinvalid]
  exact ⟨rfl, rfl⟩

/-- C4 witness: latitude 91 is rejected with InvalidArgument. -/
theorem claim_C4_witness :
    validCoordinates (⟨91, 77⟩ : Coordinates) = false ∧
    validate_and_record 40 testDist false [testLoc] testGuard
        ⟨"QR1", ⟨91, 77⟩, none⟩ none none true 0 [] =
      .error ⟨422, "InvalidArgument"⟩ :=
  ⟨by norm_num [validCoordinates],
   (claim_C4_invalid_coordinates_rejected 40 testDist false [testLoc]
     testGuard ⟨"QR1", ⟨91, 77⟩, none⟩ none none true 0 []
     (by norm_num [validCoordinates])).1⟩

/-- C5: when the event-store insert fails, the call fails with the
storage-failure error, never reports success, and leaves the event store
unchanged — no partial record exists. -/
theorem claim_C5_storage_failure
    (radius_threshold : ℚ) (dist : Coordinates → Coordinates → ℚ)
    (qr_locations : List QRLocation) (current_guard : Guard)
    (scan_request : QRScanRequest) (geocode : Option String)
    (sheets_ok : Bool) (now : Nat) (events : List ScanEventDoc)
    (qr_location : QRLocation)
    (hloc : qr_locations.find?
        (qrLocationQuery scan_request.qrId current_guard.supervisor_id) =
      some qr_location) :
    scan_qr_code radius_threshold dist true qr_locations current_guard
        scan_request geocode none sheets_ok now events =
      .error ⟨500, "Failed to process QR scan"⟩ ∧
    storeAfter events
        (scan_qr_code radius_threshold dist true qr_locations current_guard
          scan_request geocode none sheets_ok now events) = events ∧
    ∀ resp store,
      scan_qr_code radius_threshold dist true qr_locations current_guard
          scan_request geocode none sheets_ok now events ≠
        .ok (resp, store) := by
  unfold scan_qr_code
  rw [hloc]
  exact ⟨rfl, rfl, fun resp store h => by simp at h⟩

/-- C5 witness: a concrete scan whose insert fails. -/
theorem claim_C5_witness :
    [testLoc].find? (qrLocationQuery testReq.qrId testGuard.supervisor_id) =
      some testLoc ∧
    scan_qr_code 40 testDist true [testLoc] testGuard testReq none none
        true 0 [] = .error ⟨500, "Failed to process QR scan"⟩ :=
  ⟨by decide,
   (claim_C5_storage_failure 40 testDist [testLoc] testGuard testReq none
     true 0 [] testLoc (by decide)).1⟩

/-- C6: geocoding and spreadsheet-mirror failures are non-fatal: with a
failed geocode the call still returns a successful verdict with
`address = ""`, and neither the geocode outcome nor the sheets-mirror
outcome is ever surfaced as an error or changes the verdict (geofence
flag, rounded distance, message). -/
theorem claim_C6_provider_failures_nonfatal
    (radius_threshold : ℚ) (dist : Coordinates → Coordinates → ℚ)
    (qr_locations : List QRLocation) (current_guard : Guard)
    (scan_request : QRScanRequest) (eid : Nat) (sheets_ok : Bool)
    (now : Nat) (events : List ScanEventDoc) (qr_location : QRLocation)
    (hloc : qr_locations.find?
        (qrLocationQuery scan_request.qrId current_guard.supervisor_id) =
      some qr_location) :
    (∃ resp store,
      scan_qr_code radius_threshold dist true qr_locations current_guard
          scan_request none (some eid) sheets_ok now events =
        .ok (resp, store) ∧
      resp.address = "") ∧
    (∀ geocode₁ geocode₂ : Option String, ∀ sheets₁ sheets₂ : Bool,
      guardVerdict
          (scan_qr_code radius_threshold dist true qr_locations
            current_guard scan_request geocode₁ (some eid) sheets₁ now
            events) =
        guardVerdict
          (scan_qr_code radius_threshold dist true qr_locations
            current_guard scan_request geocode₂ (some eid) sheets₂ now
            events)) := by
  constructor
  · unfold scan_qr_code
    rw [hloc]
    exact ⟨_, _, rfl, rfl⟩
  · intro geocode₁ geocode₂ sheets₁ sheets₂
    unfold scan_qr_code
    rw [hloc]
    rfl

/-- C6 witness: a concrete scan with failed geocode still succeeds with an
empty address and an unchanged verdict. -/
theorem claim_C6_witness :
    [testLoc].find? (qrLocationQuery testReq.qrId testGuard.supervisor_id) =
      some testLoc ∧
    ((∃ resp store,
      scan_qr_code 40 testDist true [testLoc] testGuard testReq none
          (some 5) true 0 [] = .ok (resp, store) ∧
      resp.address = "") ∧
    (∀ geocode₁ geocode₂ : Option String, ∀ sheets₁ sheets₂ : Bool,
      guardVerdict
          (scan_qr_code 40 testDist true [testLoc] testGuard testReq
            geocode₁ (some 5) sheets₁ 0 []) =
        guardVerdict
          (scan_qr_code 40 testDist true [testLoc] testGuard testReq
            geocode₂ (some 5) sheets₂ 0 []))) :=
  ⟨by decide,
   claim_C6_provider_failures_nonfatal 40 testDist [testLoc] testGuard
     testReq 5 true 0 [] testLoc (by decide)⟩

/-- C7: the persisted scan event carries every specified field: actor and
owning-group references, QR location reference, reported coordinates,
the geofence flag from the full-precision comparison, the two-decimal
rounded distance, the resolved (or empty) address, the creation
timestamp, the optional note, and — on the public route — the optional
device metadata (the guard route persists no device field). -/
theorem claim_C7_persisted_event_fields
    (radius_threshold : ℚ) (dist : Coordinates → Coordinates → ℚ)
    (users : List User) (guards : List GuardDoc)
    (qr_locations : List QRLocation) (current_guard : Guard)
    (scan_request : QRScanRequest)
    (public_request : QRCodePublicScanRequest) (geocode : Option String)
    (eid : Nat) (sheets_ok : Bool) (now : Nat) (events : List ScanEventDoc)
    (qr_location qr_location' : QRLocation) (guard_user : User)
    (guard_doc : GuardDoc)
    (hloc : qr_locations.find?
        (qrLocationQuery scan_request.qrId current_guard.supervisor_id) =
      some qr_location)
    (hu : users.find? (fun u =>
        u.email == public_request.guardEmail && u.role == "GUARD" &&
          u.isActive) = some guard_user)
    (hgd : guards.find? (fun g => g.userId == guard_user.oid) =
      some guard_doc)
    (hlocp : qr_locations.find?
        (qrLocationQuery public_request.qrId guard_doc.supervisorId) =
      some qr_location') :
    (∃ resp,
      scan_qr_code radius_threshold dist true qr_locations current_guard
          scan_request geocode (some eid) sheets_ok now events =
        .ok (resp, events ++
          [{ guardId := current_guard.guard_id
             supervisorId := current_guard.supervisor_id
             qrLocationId := qr_location.oid
             qrId := scan_request.qrId
             locationName := qr_location.locationName
             coordinates := scan_request.coordinates
             address := geocode.getD ""
             areaCity := qr_location.areaCity
             areaState := qr_location.areaState
             areaCountry := qr_location.areaCountry
             isWithinRadius := decide
               (dist scan_request.coordinates qr_location.coordinates ≤
                 radius_threshold)
             distanceFromQR := pyRound
               (dist scan_request.coordinates qr_location.coordinates) 2
             scannedAt := now
             notes := scan_request.notes
             deviceInfo := none }])) ∧
    (∃ resp,
      public_scan_qr_code radius_threshold dist true users guards
          qr_locations public_request geocode (some eid) sheets_ok now
          events =
        .ok (resp, events ++
          [{ guardId := guard_doc.oid
             supervisorId := guard_doc.supervisorId
             qrLocationId := qr_location'.oid
             qrId := public_request.qrId
             locationName := qr_location'.locationName
             coordinates := public_request.coordinates
             address := geocode.getD ""
             areaCity := qr_location'.areaCity
             areaState := qr_location'.areaState
             areaCountry := qr_location'.areaCountry
             isWithinRadius := decide
               (dist public_request.coordinates qr_location'.coordinates ≤
                 radius_threshold)
             distanceFromQR := pyRound
               (dist public_request.coordinates qr_location'.coordinates) 2
             scannedAt := now
             notes := public_request.notes
             deviceInfo := public_request.deviceInfo }])) := by
  constructor
  · unfold scan_qr_code
    rw [hloc]
    cases geocode <;> exact ⟨_, rfl⟩
  · unfold public_scan_qr_code
    simp only [hu, hgd, hlocp]
    cases geocode <;> exact ⟨_, rfl⟩

/-- C7 witness: concrete scans on both routes persist the fully populated
event document. -/
theorem claim_C7_witness :
    [testLoc].find? (qrLocationQuery testReq.qrId testGuard.supervisor_id) =
      some testLoc ∧
    [testUser].find? (fun u =>
        u.email == testPubReq.guardEmail && u.role == "GUARD" &&
          u.isActive) = some testUser ∧
    [testGuardDoc].find? (fun g => g.userId == testUser.oid) =
      some testGuardDoc ∧
    [testLoc].find?
        (qrLocationQuery testPubReq.qrId testGuardDoc.supervisorId) =
      some testLoc ∧
    (∃ resp,
      public_scan_qr_code 40 testDist true [testUser] [testGuardDoc]
          [testLoc] testPubReq (some "12 MG Road") (some 5) true 0 [] =
        .ok (resp, [] ++
          [{ guardId := testGuardDoc.oid
             supervisorId := testGuardDoc.supervisorId
             qrLocationId := testLoc.oid
             qrId := testPubReq.qrId
             locationName := testLoc.locationName
             coordinates := testPubReq.coordinates
             address := (some "12 MG Road").getD ""
             areaCity := testLoc.areaCity
             areaState := testLoc.areaState
             areaCountry := testLoc.areaCountry
             isWithinRadius := decide
               (testDist testPubReq.coordinates testLoc.coordinates ≤ 40)
             distanceFromQR := pyRound
               (testDist testPubReq.coordinates testLoc.coordinates) 2
             scannedAt := 0
             notes := testPubReq.notes
             deviceInfo := testPubReq.deviceInfo }])) :=
  ⟨by decide, by decide, by decide, by decide,
   (claim_C7_persisted_event_fields 40 testDist [testUser] [testGuardDoc]
     [testLoc] testGuard testReq testPubReq (some "12 MG Road") 5 true 0 []
     testLoc testLoc testUser testGuardDoc (by decide) (by decide)
     (by decide) (by decide)).2⟩

/-- C8: the verdict's distance is the two-decimal rounding of the computed
distance, and the message is the confirmation string when within radius
and otherwise the warning string embedding the one-decimal rounded
distance in meters. -/
theorem claim_C8_verdict_distance_and_message
    (radius_threshold : ℚ) (dist : Coordinates → Coordinates → ℚ)
    (qr_locations : List QRLocation) (current_guard : Guard)
    (scan_request : QRScanRequest) (geocode : Option String) (eid : Nat)
    (sheets_ok : Bool) (now : Nat) (events : List ScanEventDoc)
    (qr_location : QRLocation)
    (hloc : qr_locations.find?
        (qrLocationQuery scan_request.qrId current_guard.supervisor_id) =
      some qr_location) :
    ∃ resp store,
      scan_qr_code radius_threshold dist true qr_locations current_guard
          scan_request geocode (some eid) sheets_ok now events =
        .ok (resp, store) ∧
      resp.distanceFromQR =
        pyRound (dist scan_request.coordinates qr_location.coordinates) 2 ∧
      resp.message =
        (if dist scan_request.coordinates qr_location.coordinates ≤
            radius_threshold then
          "QR code scanned successfully"
        else
          "Warning: You are " ++
            formatRat1 (pyRound
              (dist scan_request.coordinates qr_location.coordinates) 1) ++
            "m away from the QR location") := by
  unfold scan_qr_code
  rw [hloc]
  refine ⟨_, _, rfl, rfl, ?_⟩
  by_cases h :
      dist scan_request.coordinates qr_location.coordinates ≤
        radius_threshold <;>
    simp [h, warningMessage]

/-- C8 witness: a concrete out-of-radius scan whose message embeds the
one-decimal rounded distance. -/
theorem claim_C8_witness :
    [testLoc].find? (qrLocationQuery testReq.qrId testGuard.supervisor_id) =
      some testLoc ∧
    ∃ resp store,
      scan_qr_code 40 testDist true [testLoc] testGuard testReq none
          (some 5) true 0 [] = .ok (resp, store) ∧
      resp.distanceFromQR =
        pyRound (testDist testReq.coordinates testLoc.coordinates) 2 ∧
      resp.message =
        (if testDist testReq.coordinates testLoc.coordinates ≤ 40 then
          "QR code scanned successfully"
        else
          "Warning: You are " ++
            formatRat1 (pyRound
              (testDist testReq.coordinates testLoc.coordinates) 1) ++
            "m away from the QR location") :=
  ⟨by decide,
   claim_C8_verdict_distance_and_message 40 testDist [testLoc] testGuard
     testReq none 5 true 0 [] testLoc (by decide)⟩

/-- Any authenticated-scan call leaves the event store unchanged or appends
exactly one document. -/
lemma scan_qr_code_append_only (radius_threshold : ℚ)
    (dist : Coordinates → Coordinates → ℚ) (db_available : Bool)
    (qr_locations : List QRLocation) (current_guard : Guard)
    (scan_request : QRScanRequest) (geocode : Option String)
    (insert : Option Nat) (sheets_ok : Bool) (now : Nat)
    (events : List ScanEventDoc) :
    storeAfter events
        (scan_qr_code radius_threshold dist db_available qr_locations
          current_guard scan_request geocode insert sheets_ok now events) =
      events ∨
    ∃ e,
      storeAfter events
          (scan_qr_code radius_threshold dist db_available qr_locations
            current_guard scan_request geocode insert sheets_ok now
            events) = events ++ [e] := by
  unfold scan_qr_code
  repeat' split
  all_goals first
    | exact Or.inl rfl
    | exact Or.inr ⟨_, rfl⟩

/-- Any public-scan call leaves the event store unchanged or appends
exactly one document. -/
lemma public_scan_qr_code_append_only (radius_threshold : ℚ)
    (dist : Coordinates → Coordinates → ℚ) (db_available : Bool)
    (users : List User) (guards : List GuardDoc)
    (qr_locations : List QRLocation)
    (scan_request : QRCodePublicScanRequest) (geocode : Option String)
    (insert : Option Nat) (sheets_ok : Bool) (now : Nat)
    (events : List ScanEventDoc) :
    storeAfter events
        (public_scan_qr_code radius_threshold dist db_available users
          guards qr_locations scan_request geocode insert sheets_ok now
          events) = events ∨
    ∃ e,
      storeAfter events
          (public_scan_qr_code radius_threshold dist db_available users
            guards qr_locations scan_request geocode insert sheets_ok now
            events) = events ++ [e] := by
  unfold public_scan_qr_code
  dsimp only
  repeat' split
  all_goals first
    | exact Or.inl rfl
    | exact Or.inr ⟨_, rfl⟩

/-- C9: scan events are immutable after creation: the only change either
scan operation (with or without the validation layer) ever makes to the
event store is appending a single new document — no call updates or
deletes an existing scan event. -/
theorem claim_C9_event_store_append_only (radius_threshold : ℚ)
    (dist : Coordinates → Coordinates → ℚ) (db_available : Bool)
    (users : List User) (guards : List GuardDoc)
    (qr_locations : List QRLocation) (current_guard : Guard)
    (scan_request : QRScanRequest)
    (public_request : QRCodePublicScanRequest) (geocode : Option String)
    (insert : Option Nat) (sheets_ok : Bool) (now : Nat)
    (events : List ScanEventDoc) :
    (storeAfter events
        (validate_and_record radius_threshold dist db_available
          qr_locations current_guard scan_request geocode insert sheets_ok
          now events) = events ∨
      ∃ e,
        storeAfter events
            (validate_and_record radius_threshold dist db_available
              qr_locations current_guard scan_request geocode insert
              sheets_ok now events) = events ++ [e]) ∧
    (storeAfter events
        (public_scan_qr_code radius_threshold dist db_available users
          guards qr_locations public_request geocode insert sheets_ok now
          events) = events ∨
      ∃ e,
        storeAfter events
            (public_scan_qr_code radius_threshold dist db_available users
              guards qr_locations public_request geocode insert sheets_ok
              now events) = events ++ [e]) := by
  constructor
  · unfold validate_and_record
    split
    · exact scan_qr_code_append_only radius_threshold dist db_available
        qr_locations current_guard scan_request geocode insert sheets_ok
        now events
    · exact Or.inl rfl
  · exact public_scan_qr_code_append_only radius_threshold dist
      db_available users guards qr_locations public_request geocode insert
      sheets_ok now events

/-- C10: with the same resolved guard, location collection, coordinates
and configuration, the authenticated and the public scan route compute
identical verdicts: same geofence flag, same two-decimal rounded
distance, same message. -/
theorem claim_C10_routes_equivalent_verdicts (radius_threshold : ℚ)
    (dist : Coordinates → Coordinates → ℚ) (users : List User)
    (guards : List GuardDoc) (qr_locations : List QRLocation)
    (current_guard : Guard) (scan_request : QRScanRequest)
    (public_request : QRCodePublicScanRequest) (geocode : Option String)
    (insert : Option Nat) (sheets_ok : Bool) (now : Nat)
    (events : List ScanEventDoc) (guard_user : User)
    (guard_doc : GuardDoc)
    (hu : users.find? (fun u =>
        u.email == public_request.guardEmail && u.role == "GUARD" &&
          u.isActive) = some guard_user)
    (hgd : guards.find? (fun g => g.userId == guard_user.oid) =
      some guard_doc)
    (hqr : scan_request.qrId = public_request.qrId)
    (hco : scan_request.coordinates = public_request.coordinates)
    (hsup : current_guard.supervisor_id = guard_doc.supervisorId) :
    guardVerdict
        (scan_qr_code radius_threshold dist true qr_locations
          current_guard scan_request geocode insert sheets_ok now events) =
      publicVerdict
        (public_scan_qr_code radius_threshold dist true users guards
          qr_locations public_request geocode insert sheets_ok now
          events) := by
  unfold scan_qr_code public_scan_qr_code
  rw [hqr, hco, hsup]
  simp only [hu, hgd]
  cases hfind : qr_locations.find?
      (qrLocationQuery public_request.qrId guard_doc.supervisorId) with
  | none => simp [hfind, guardVerdict, publicVerdict]
  | some qr_location =>
    simp only [hfind]
    cases insert <;> simp [guardVerdict, publicVerdict]

/-- C10 witness: a concrete scan issued through both routes yields the
same verdict. -/
theorem claim_C10_witness :
    [testUser].find? (fun u =>
        u.email == testPubReq.guardEmail && u.role == "GUARD" &&
          u.isActive) = some testUser ∧
    [testGuardDoc].find? (fun g => g.userId == testUser.oid) =
      some testGuardDoc ∧
    testReq.qrId = testPubReq.qrId ∧
    testReq.coordinates = testPubReq.coordinates ∧
    testGuard.supervisor_id = testGuardDoc.supervisorId ∧
    guardVerdict
        (scan_qr_code 40 testDist true [testLoc] testGuard testReq none
          (some 5) true 0 []) =
      publicVerdict
        (public_scan_qr_code 40 testDist true [testUser] [testGuardDoc]
          [testLoc] testPubReq none (some 5) true 0 []) :=
  ⟨by decide, by decide, rfl, rfl, by decide,
   claim_C10_routes_equivalent_verdicts 40 testDist [testUser]
     [testGuardDoc] [testLoc] testGuard testReq testPubReq none (some 5)
     true 0 [] testUser testGuardDoc (by decide) (by decide) rfl rfl
     (by decide)⟩
